import Mathlib

/-!
Shallow embedding of the valencia dataops repository (registry, training
workflow, model classes and serving state) and proofs of the specification
claims about it.

Conventions of the embedding:
* Python floats are modelled as rationals; all arithmetic performed by the
  code (division by 100, sums, means) is exact at the values the claims use.
* The filesystem is a finite association of path strings to file contents,
  plus a set of directories.  File contents are modelled at the granularity
  of the document formats the code reads and writes (a JSON object document,
  a JSONL log, a CSV table, a YAML document, a pickled object), together
  with degenerate cases (empty text, text that fails JSON parsing).
* Fallible Python code is modelled in the Except monad; a raised exception
  is an error value.  External processes (git, dvc, mlflow) are modelled by
  an environment record carrying their outcomes.
-/

namespace Valencia

/-- A JSON value as stored in a production record: the records written by
train.py only contain strings and numbers. -/
inductive JVal where
  | s (v : String)
  | num (q : ℚ)
  deriving DecidableEq, Repr

/-- A Python dict with string keys, as serialized to production.json. -/
abbrev PyDict : Type := List (String × JVal)

/-- A parsed CSV file as seen through csv.DictReader: the header row
(fieldnames, none when the file has no header) and the data rows, each a
mapping from column name to cell text. -/
structure CsvData where
  fieldnames : Option (List String)
  rows : List (List (String × String))

/-- A YAML value, for the dvc pointer file parsed by get_data_dvc_md5. -/
inductive YVal where
  | ynull
  | ystr (v : String)
  | ynum (q : ℚ)
  | ylist (xs : List YVal)
  | ydict (kvs : List (String × YVal))

/-- ConstantModel from model.py: a trivial model that always predicts a
constant value. -/
structure ConstantModel where
  y_value : ℚ := 3 / 2
  deriving DecidableEq, Repr

/-- MeanModel from model.py: always predicts the mean height (in meters)
computed from the dataset. -/
structure MeanModel where
  mean_value : ℚ
  deriving DecidableEq, Repr

/-- ConstantModel.predict_one: intentionally ignores the input. -/
def ConstantModel.predict_one (m : ConstantModel) (height_cm : ℚ) : ℚ :=
  m.y_value

/-- MeanModel.predict_one: intentionally ignores the input. -/
def MeanModel.predict_one (m : MeanModel) (height_cm : ℚ) : ℚ :=
  m.mean_value

/-- The closed set of model objects train.py ever pickles. -/
inductive ModelObj where
  | constModel (c : ConstantModel)
  | meanModel (m : MeanModel)
  deriving DecidableEq, Repr

/-- Dispatching predict_one through the model object. -/
def ModelObj.predictOne : ModelObj → ℚ → ℚ
  | .constModel c, x => c.predict_one x
  | .meanModel m, x => m.predict_one x

/-- An unpickled Python object: either one of the model objects, or some
other object lacking a predict_one method. -/
inductive PyObj where
  | isModel (m : ModelObj)
  | noPredictOne

/-- File contents, at the granularity of the document formats the code
manipulates. -/
inductive Content where
  | emptyText
  | notJson
  | jsonObj (kvs : PyDict)
  | jsonNonObj
  | jsonl (lines : List PyDict)
  | csvFile (c : CsvData)
  | yamlFile (y : YVal)
  | pickle (o : PyObj)

/-- Filesystem state: files (path to content) and directories. -/
structure Fs where
  files : List (String × Content)
  dirs : List String

/-- Association-list lookup by path. -/
def lookupC : List (String × Content) → String → Option Content
  | [], _ => none
  | (q, c) :: rest, p => if q = p then some c else lookupC rest p

/-- Association-list update (insert or replace) by path. -/
def updateAssoc : List (String × Content) → String → Content → List (String × Content)
  | [], p, c => [(p, c)]
  | (q, d) :: rest, p, c =>
      if q = p then (p, c) :: rest else (q, d) :: updateAssoc rest p c

/-- Association-list removal by path. -/
def removeAssoc : List (String × Content) → String → List (String × Content)
  | [], _ => []
  | (q, d) :: rest, p =>
      if q = p then removeAssoc rest p else (q, d) :: removeAssoc rest p

/-- Contents of the file at a path, none when it does not exist. -/
def Fs.getFile (fs : Fs) (p : String) : Option Content :=
  lookupC fs.files p

/-- Create or overwrite the file at a path. -/
def Fs.setFile (fs : Fs) (p : String) (c : Content) : Fs :=
  { fs with files := updateAssoc fs.files p c }

/-- Delete the file at a path (os.remove). -/
def Fs.removeFile (fs : Fs) (p : String) : Fs :=
  { fs with files := removeAssoc fs.files p }

/-- Atomic rename of src onto dst (os.replace): dst takes the content of
src and src disappears. -/
def Fs.replaceFile (fs : Fs) (src dst : String) : Fs :=
  match fs.getFile src with
  | some c => (fs.removeFile src).setFile dst c
  | none => fs

/-- mkdir -p for a single directory. -/
def Fs.mkdirp (fs : Fs) (d : String) : Fs :=
  { fs with dirs := if d ∈ fs.dirs then fs.dirs else d :: fs.dirs }

/-- Drop leading whitespace characters from a character list. -/
def dropLeadingWs : List Char → List Char
  | [] => []
  | c :: cs => if c.isWhitespace then dropLeadingWs cs else c :: cs

/-- Model of the Python str.strip method: remove whitespace from both
ends. -/
def pyStrip (s : String) : String :=
  String.mk (dropLeadingWs ((dropLeadingWs s.data.reverse).reverse))

/-- Model of the Python str.lower method on the ASCII strings the code
handles. -/
def pyLower (s : String) : String :=
  String.mk (s.data.map Char.toLower)

/-- Path of the production pointer file. -/
def productionJsonPath : String := "metadata/production.json"

/-- The fresh temporary file name produced by tempfile.mkstemp in
write_production; mkstemp guarantees it is a new name distinct from the
target. -/
def tmpJsonPath : String := "metadata/production.XXXXXXXX.json.tmp"

/-- Path of the append-only retrain log. -/
def retrainLogPath : String := "metadata/retrain_log.jsonl"

/-- Path of the raw dataset CSV. -/
def dataCsvPath : String := "data/family_heights.csv"

/-- Path of the dvc pointer file for the dataset. -/
def dataDvcPath : String := "data/family_heights.csv.dvc"

/-- Path of the pickled production model artifact. -/
def modelPklPath : String := "models/production/model.pkl"

/-- registry.ensure_dirs: create the metadata and production model
directories if missing. -/
def ensure_dirs (fs : Fs) : Fs :=
  (fs.mkdirp "metadata").mkdirp "models/production"

/-- Whether the text of a file strips to the empty string (the raw.strip()
emptiness test in read_production). -/
def Content.stripIsEmpty : Content → Bool
  | .emptyText => true
  | _ => false

/-- Top-level result of json.loads on a file's text. -/
inductive JTop where
  | obj (kvs : PyDict)
  | nonObj

/-- Model of json.loads on a file's text: a JSON object document parses to
its dict, other valid JSON parses to a non-dict value, anything else fails
(a CSV table, a YAML document, a pickle and a multi-line JSONL log are not
a single valid JSON document). -/
def jsonLoads : Content → Except String JTop
  | .jsonObj kvs => .ok (.obj kvs)
  | .jsonNonObj => .ok .nonObj
  | _ => .error "JSONDecodeError"

/-- registry.read_production with the exception plumbing explicit: the body
of the try block may raise only from json.loads, and that exception is
caught and turned into the empty dict, so the whole routine is ok on every
filesystem. -/
def read_production_run (fs : Fs) : Except String PyDict :=
  match fs.getFile productionJsonPath with
  | none => .ok []
  | some c =>
      if c.stripIsEmpty then .ok []
      else
        match jsonLoads c with
        | .ok (.obj kvs) => .ok kvs
        | .ok .nonObj => .ok []
        | .error _ => .ok []

/-- registry.read_production: read metadata/production.json, returning the
empty dict if the file is missing, empty, unparseable, or not a dict. -/
def read_production (fs : Fs) : PyDict :=
  match read_production_run fs with
  | .ok d => d
  | .error _ => []

/-- Failure points inside write_production strictly before the atomic
os.replace call. -/
inductive WriteCrash where
  | duringMkstemp
  | afterMkstemp
  | beforeReplace
  deriving DecidableEq, Repr

/-- registry.write_production with fault injection: serialize the record,
write it to a fresh sibling temp file, fsync, then atomically replace the
target.  The crash argument simulates an exception at the given point; the
finally block then removes the temp file if it exists, and the exception
propagates (the error result). -/
def write_production (meta : PyDict) (fs : Fs) (crash : Option WriteCrash) :
    Except Unit String × Fs :=
  let fs1 := ensure_dirs fs
  match crash with
  | some .duringMkstemp =>
      (.error (), fs1)
  | some .afterMkstemp =>
      let fs2 := fs1.setFile tmpJsonPath .emptyText
      (.error (), fs2.removeFile tmpJsonPath)
  | some .beforeReplace =>
      let fs2 := fs1.setFile tmpJsonPath (.jsonObj meta)
      (.error (), fs2.removeFile tmpJsonPath)
  | none =>
      let fs2 := fs1.setFile tmpJsonPath (.jsonObj meta)
      (.ok productionJsonPath, fs2.replaceFile tmpJsonPath productionJsonPath)

/-- registry.append_retrain_log with an outcome flag for the append system
call: on success one serialized line is appended to the log (creating it if
absent); on failure the exception propagates and the log is unchanged. -/
def append_retrain_log (entry : PyDict) (fs : Fs) (appendOk : Bool) :
    Except Unit String × Fs :=
  let fs1 := ensure_dirs fs
  if appendOk then
    let prior :=
      match fs1.getFile retrainLogPath with
      | some (.jsonl ls) => ls
      | _ => []
    (.ok retrainLogPath, fs1.setFile retrainLogPath (.jsonl (prior ++ [entry])))
  else
    (.error (), fs1)

/-! Embedding of train.py. -/

/-- Typed errors of the retrain workflow, mirroring the exceptions raised
in train.py (ValueError, FileNotFoundError, RuntimeError) and the error
taxonomy of the specification. -/
inductive TrainError where
  | invalidArgument (msg : String)
  | datasetNotFound
  | datasetUnavailable (output : String)
  | noHeaderRow
  | missingHeightColumn
  | invalidRow (i : ℕ) (raw : String)
  | emptyDataset
  | trackingUnavailable
  deriving DecidableEq, Repr

/-- The numeric value of a decimal digit character, none otherwise. -/
def charDigit : Char → Option ℕ := fun c =>
  if c.isDigit then some (c.toNat - Char.toNat (Char.ofNat 48)) else none

/-- Read a run of characters as a decimal number; fails on any non-digit.
An empty run yields the accumulator. -/
def readDigits : List Char → ℕ → Option ℕ
  | [], acc => some acc
  | c :: cs, acc =>
      match charDigit c with
      | some d => readDigits cs (acc * 10 + d)
      | none => none

/-- Model of the Python float constructor on a stripped string, for the
decimal literals appearing in CSV cells: optional sign, integer and
fractional digits around an optional point, optional exponent.  Returns
none when the text is not such a numeric literal (exotic spellings such as
inf, nan or underscored digits are treated as non-numeric). -/
def pyFloat (s : String) : Option ℚ :=
  let cs := s.data
  let signed : ℚ × List Char :=
    match cs with
    | Char.ofNat 43 :: r => (1, r)
    | Char.ofNat 45 :: r => (-1, r)
    | r => (1, r)
  let sgn := signed.1
  let body := signed.2
  let mantExp := body.span (fun c => !(c == Char.ofNat 101 || c == Char.ofNat 69))
  let mant := mantExp.1
  let expOpt : Option ℤ :=
    match mantExp.2 with
    | [] => some 0
    | _ :: r =>
        let esigned : ℤ × List Char :=
          match r with
          | Char.ofNat 43 :: t => (1, t)
          | Char.ofNat 45 :: t => (-1, t)
          | t => (1, t)
        if esigned.2.isEmpty then none
        else
          match readDigits esigned.2 0 with
          | some e => some (esigned.1 * e)
          | none => none
  let ipFrac := mant.span (fun c => !(c == Char.ofNat 46))
  let ip := ipFrac.1
  let fpOpt : Option (List Char) :=
    match ipFrac.2 with
    | [] => some []
    | _ :: t => some t
  match expOpt, fpOpt with
  | some e, some fp =>
      if ip.isEmpty && fp.isEmpty then none
      else
        match readDigits ip 0, readDigits fp 0 with
        | some iv, some fv =>
            some (sgn * ((iv : ℚ) + (fv : ℚ) / (10 : ℚ) ^ fp.length) * (10 : ℚ) ^ e)
        | _, _ => none
  | _, _ => none

/-- Cell text of a row in a given column through csv.DictReader: a missing
key reads as None, which the code coerces to the empty string. -/
def lookupRow (row : List (String × String)) (key : String) : Option String :=
  match row with
  | [] => none
  | (k, v) :: rest => if k = key then some v else lookupRow rest key

/-- The stripped cell text used by the row loop of
read_heights_csv_normalized. -/
def cellOf (row : List (String × String)) (key : String) : String :=
  pyStrip ((lookupRow row key).getD "")

/-- The last field name whose stripped form equals the candidate: the
columns dict comprehension maps name.strip() to name, so a later duplicate
overwrites an earlier one. -/
def lastMatch (fieldnames : List String) (cand : String) : Option String :=
  (fieldnames.filter (fun n => pyStrip n = cand)).getLast?

/-- Choice of the height column: first candidate of height_cm, height_m,
height that appears among the stripped field names wins, and the original
(unstripped) field name is used as the row key. -/
def findHeightCol (fieldnames : List String) : Option String :=
  match lastMatch fieldnames "height_cm" with
  | some k => some k
  | none =>
      match lastMatch fieldnames "height_m" with
      | some k => some k
      | none => lastMatch fieldnames "height"

/-- The row loop of read_heights_csv_normalized: rows are enumerated from
start index i (the source starts at 1); blank cells are skipped; a cell
that the float constructor rejects raises the invalid-row error naming the
row index and raw text. -/
def collectHeights : List (List (String × String)) → String → ℕ →
    Except TrainError (List ℚ)
  | [], _, _ => .ok []
  | row :: rest, key, i =>
      let raw := cellOf row key
      if raw = "" then collectHeights rest key (i + 1)
      else
        match pyFloat raw with
        | some q => (collectHeights rest key (i + 1)).map (fun t => q :: t)
        | none => .error (.invalidRow i raw)

/-- Maximum of a nonempty list of rationals, as the Python max builtin. -/
def maxList (h : ℚ) (t : List ℚ) : ℚ := t.foldl max h

/-- The unit-normalization step of read_heights_csv_normalized: if the
maximum raw value exceeds 10 the values are treated as centimeters and
divided by 100, otherwise they are kept as meters unchanged. -/
def normalizeHeights (hs : List ℚ) : List ℚ :=
  match hs with
  | [] => []
  | h :: t =>
      if 10 < maxList h t then (h :: t).map (fun v => v / 100)
      else h :: t

/-- train.read_heights_csv_normalized on a parsed CSV table: header
checks, height-column selection, the row loop, the empty-dataset check and
unit normalization. -/
def read_heights_csv_normalized (c : CsvData) : Except TrainError (List ℚ) :=
  match c.fieldnames with
  | none => .error .noHeaderRow
  | some fns =>
      match findHeightCol fns with
      | none => .error .missingHeightColumn
      | some key =>
          match collectHeights c.rows key 1 with
          | .error e => .error e
          | .ok hs =>
              if hs.isEmpty then .error .emptyDataset
              else .ok (normalizeHeights hs)

/-- Reading the dataset file as CSV: contents that are not a CSV table
have no recognizable header row for csv.DictReader. -/
def readHeightsFromContent : Content → Except TrainError (List ℚ)
  | .csvFile c => read_heights_csv_normalized c
  | _ => .error .noHeaderRow

/-- Python truthiness of a YAML value. -/
def yTruthy : YVal → Bool
  | .ynull => false
  | .ystr v => !(v == "")
  | .ynum q => !(q == 0)
  | .ylist xs => !xs.isEmpty
  | .ydict kvs => !kvs.isEmpty

/-- Python str() of a YAML scalar, as applied to the md5 field. -/
def yStr : YVal → String
  | .ystr v => v
  | .ynum q => toString q
  | .ynull => "None"
  | .ylist _ => "[...]"
  | .ydict _ => "{...}"

/-- Lookup in a parsed YAML mapping. -/
def lookupY : List (String × YVal) → String → Option YVal
  | [], _ => none
  | (k, v) :: rest, key => if k = key then some v else lookupY rest key

/-- train.get_data_dvc_md5: parse the dvc pointer file and return
outs[0].md5, or the empty string if the file is absent, fails to parse as
YAML, or lacks the expected shape. -/
def get_data_dvc_md5 (fs : Fs) : String :=
  match fs.getFile dataDvcPath with
  | some (.yamlFile (.ydict kvs)) =>
      match lookupY kvs "outs" with
      | some (.ylist (first :: _)) =>
          match first with
          | .ydict fkvs =>
              match lookupY fkvs "md5" with
              | some md5 => if yTruthy md5 then yStr md5 else ""
              | none => ""
          | _ => ""
      | _ => ""
  | _ => ""

/-- Outcome of the external dvc pull subprocess when invoked. -/
inductive DvcPullResult where
  | fails (output : String)
  | succeedsWith (c : Content)
  | succeedsNoFile

/-- Outcomes of the external collaborators of train.py: the git
subprocess, the dvc pull subprocess, the mlflow tracking run (none when
starting the run raises), and the two wall-clock timestamps taken while
building the record and the log entry. -/
structure Env where
  gitOut : Option String
  dvcPull : DvcPullResult
  mlflowRunId : Option String
  nowPromote : String
  nowLog : String

/-- train.get_git_commit_sha: stripped subprocess output, or the empty
string if the call fails. -/
def get_git_commit_sha (env : Env) : String :=
  match env.gitOut with
  | some out => pyStrip out
  | none => ""

/-- train.ensure_dataset_materialized: return the dataset file if present;
otherwise attempt a dvc pull when a pointer file exists, failing loudly if
the pull fails or leaves the file missing; fail with the not-found error
when neither file nor pointer exists. -/
def ensure_dataset_materialized (env : Env) (fs : Fs) :
    Except TrainError (Fs × Content) :=
  match fs.getFile dataCsvPath with
  | some c => .ok (fs, c)
  | none =>
      if (fs.getFile dataDvcPath).isSome then
        match env.dvcPull with
        | .fails out => .error (.datasetUnavailable out)
        | .succeedsWith c => .ok (fs.setFile dataCsvPath c, c)
        | .succeedsNoFile =>
            .error (.datasetUnavailable
              "dvc pull reported success but the dataset file is still missing")
      else .error .datasetNotFound

/-- The cleaned model type: model_type or the constant default when falsy,
then stripped and lowercased. -/
def normModelType (model_type : String) : String :=
  pyLower (pyStrip (if model_type = "" then "constant" else model_type))

/-- train.train_and_promote: validate arguments, ensure directories,
materialize and read the dataset, compute row count and mean, gather
provenance, start the tracking run, build and dump the model artifact,
build the production record, write the pointer atomically and append the
audit log entry.  Returns the record and the resulting filesystem; on
failure the error and the filesystem as left by the failing step. -/
def train_and_promote (trainer model_type : String) (y_value : ℚ)
    (env : Env) (fs : Fs) : Except TrainError PyDict × Fs :=
  let trainer_clean := pyStrip trainer
  if trainer_clean = "" then
    (.error (.invalidArgument "trainer must be a non-empty string"), fs)
  else
    let mt := normModelType model_type
    if mt = "constant" ∨ mt = "mean" then
      let fs1 := ensure_dirs fs
      match ensure_dataset_materialized env fs1 with
      | .error e => (.error e, fs1)
      | .ok (fs2, content) =>
          match readHeightsFromContent content with
          | .error e => (.error e, fs2)
          | .ok heights_m =>
              let n_rows := heights_m.length
              let mean_height_m := heights_m.sum / (n_rows : ℚ)
              let data_dvc_md5 := get_data_dvc_md5 fs2
              let git_commit := get_git_commit_sha env
              match env.mlflowRunId with
              | none => (.error .trackingUnavailable, fs2)
              | some run_id =>
                  let model : ModelObj :=
                    if mt = "constant" then .constModel ⟨y_value⟩
                    else .meanModel ⟨mean_height_m⟩
                  let effective_y_value :=
                    if mt = "constant" then y_value else mean_height_m
                  let fs3 := fs2.setFile modelPklPath (.pickle (.isModel model))
                  let meta : PyDict :=
                    [("run_id", .s run_id),
                     ("trainer", .s trainer_clean),
                     ("model_type", .s mt),
                     ("y_value", .num effective_y_value),
                     ("mean_height_m", .num mean_height_m),
                     ("n_rows", .num (n_rows : ℚ)),
                     ("data_dvc_md5", .s data_dvc_md5),
                     ("git_commit", .s git_commit),
                     ("model_path", .s modelPklPath),
                     ("promoted_at_utc", .s env.nowPromote)]
                  let fs4 := (write_production meta fs3 none).2
                  let entry := meta ++ [("logged_at_utc", .s env.nowLog)]
                  let fs5 := (append_retrain_log entry fs4 true).2
                  (.ok meta, fs5)
    else
      (.error (.invalidArgument "model_type must be either constant or mean"), fs)

/-- The promotion tail of train_and_promote (its lines from
write_production to append_retrain_log): write the pointer, then append
the record extended with the logged-at timestamp to the audit log, with
the append outcome injectable. -/
def promote (meta : PyDict) (loggedAt : String) (appendOk : Bool) (fs : Fs) : Fs :=
  let fs1 := (write_production meta fs none).2
  (append_retrain_log (meta ++ [("logged_at_utc", .s loggedAt)]) fs1 appendOk).2

/-- The lines currently in the retrain log. -/
def logLines (fs : Fs) : List PyDict :=
  match fs.getFile retrainLogPath with
  | some (.jsonl ls) => ls
  | _ => []

/-! Embedding of app/main.py. -/

/-- The module-global serving state of app/main.py: model object,
production metadata and load-error string, always written together under
the state lock. -/
structure ServingState where
  model : Option ModelObj
  production_meta : PyDict
  model_load_error : String
  deriving Repr

/-- The guidance message stored when no production model exists yet. -/
def noModelMsg : String :=
  "No production model available yet. Call POST /retrain first to create and promote a model."

/-- Lookup of a key in a production record. -/
def lookupJ : PyDict → String → Option JVal
  | [], _ => none
  | (k, v) :: rest, key => if k = key then some v else lookupJ rest key

/-- Model of joblib.load on a path: a pickled object deserializes to that
object; a missing file or a file in any other format raises. -/
def joblibLoad (fs : Fs) (path : String) : Except String PyObj :=
  match fs.getFile path with
  | some (.pickle o) => .ok o
  | some _ => .error "UnpicklingError: invalid pickle data"
  | none => .error "FileNotFoundError"

/-- The try-block body of load_model, with every exception it can raise
made explicit: the model_path field may be a non-string truthy value whose
strip call raises AttributeError; joblib.load may raise; a loaded object
without predict_one raises TypeError.  On the ok path it returns the pair
of model object and error message the source computes. -/
def loadBody (fs : Fs) : Except String (Option ModelObj × String) :=
  let meta := read_production fs
  match lookupJ meta "model_path" with
  | none => .ok (none, noModelMsg)
  | some (.num q) =>
      if q = 0 then .ok (none, noModelMsg)
      else .error "AttributeError: value has no attribute strip"
  | some (.s v) =>
      let raw := pyStrip v
      if raw = "" then .ok (none, noModelMsg)
      else
        match joblibLoad fs raw with
        | .error e => .error e
        | .ok (.isModel m) => .ok (some m, "")
        | .ok .noPredictOne =>
            .error "Loaded object does not implement predict_one(height_cm)."

/-- load_model as a state transition on the module globals: the previous
state is entirely overwritten by the freshly computed triple; the except
clause converts any body exception into a recorded load error. -/
def load_model (prev : ServingState) (fs : Fs) : ServingState :=
  let meta := read_production fs
  match loadBody fs with
  | .ok (m, err) =>
      { model := m, production_meta := meta, model_load_error := err }
  | .error e =>
      { model := none, production_meta := meta,
        model_load_error := "Failed to load production model: " ++ e }

/-- load_model with its exception behavior explicit: the routine catches
every exception of its body, so it returns normally on every filesystem
state. -/
def load_model_run (prev : ServingState) (fs : Fs) : Except String ServingState :=
  let meta := read_production fs
  match loadBody fs with
  | .ok (m, err) =>
      .ok { model := m, production_meta := meta, model_load_error := err }
  | .error e =>
      .ok { model := none, production_meta := meta,
            model_load_error := "Failed to load production model: " ++ e }

/-! Concrete fixtures used by witnesses and counterexamples. -/

/-- The scenario dataset of the specification: member,height_cm rows A,170
and B,180. -/
def sampleCsv : CsvData :=
  { fieldnames := some ["member", "height_cm"],
    rows := [[("member", "A"), ("height_cm", "170")],
             [("member", "B"), ("height_cm", "180")]] }

/-- A filesystem holding only the scenario dataset. -/
def fsSample : Fs :=
  { files := [(dataCsvPath, .csvFile sampleCsv)], dirs := [] }

/-- An environment where git and dvc are unavailable and the tracking run
starts successfully. -/
def envSample : Env :=
  { gitOut := none,
    dvcPull := .fails "",
    mlflowRunId := some "run-0001",
    nowPromote := "2026-01-01T00:00:00+00:00",
    nowLog := "2026-01-01T00:00:01+00:00" }

/-- The empty filesystem. -/
def fsEmpty : Fs := { files := [], dirs := [] }

/-- A row the loop of read_heights_csv_normalized passes over without
raising: its height cell is blank (skipped) or parses as a float. -/
def rowOk (key : String) (row : List (String × String)) : Prop :=
  cellOf row key = "" ∨ (pyFloat (cellOf row key)).isSome

instance (key : String) (row : List (String × String)) :
    Decidable (rowOk key row) := by
  unfold rowOk
  infer_instance

/-- A CSV table whose second data row has the non-numeric height abc. -/
def csvBad : CsvData :=
  { fieldnames := some ["height_cm"],
    rows := [[("height_cm", "170")], [("height_cm", "abc")]] }

/-- A CSV table with a header but only blank height cells. -/
def csvBlank : CsvData :=
  { fieldnames := some ["height_cm"],
    rows := [[("height_cm", "  ")]] }

/-- A filesystem whose production pointer names an artifact path that does
not exist, so loading the model raises inside the try block. -/
def fsBadPointer : Fs :=
  { files := [(productionJsonPath, .jsonObj [("model_path", .s modelPklPath)])],
    dirs := [] }

section FsLemmas

theorem lookup_update_self (l : List (String × Content)) (p : String) (c : Content) :
    lookupC (updateAssoc l p c) p = some c := by
  induction l with
  | nil => simp [updateAssoc, lookupC]
  | cons hd tl ih =>
      obtain ⟨q, d⟩ := hd
      by_cases h : q = p
      · simp [updateAssoc, lookupC, h]
      · simp [updateAssoc, lookupC, h, ih]

theorem lookup_update_ne (l : List (String × Content)) (p r : String) (c : Content)
    (h : r ≠ p) : lookupC (updateAssoc l p c) r = lookupC l r := by
  induction l with
  | nil => simp [updateAssoc, lookupC, Ne.symm h]
  | cons hd tl ih =>
      obtain ⟨q, d⟩ := hd
      by_cases hq : q = p
      · subst hq
        simp [updateAssoc, lookupC, Ne.symm h]
      · simp [updateAssoc, lookupC, hq, ih]

theorem lookup_remove_self (l : List (String × Content)) (p : String) :
    lookupC (removeAssoc l p) p = none := by
  induction l with
  | nil => simp [removeAssoc, lookupC]
  | cons hd tl ih =>
      obtain ⟨q, d⟩ := hd
      by_cases h : q = p
      · simp [removeAssoc, h, ih]
      · simp [removeAssoc, lookupC, h, ih]

theorem lookup_remove_ne (l : List (String × Content)) (p r : String) (h : r ≠ p) :
    lookupC (removeAssoc l p) r = lookupC l r := by
  induction l with
  | nil => simp [removeAssoc]
  | cons hd tl ih =>
      obtain ⟨q, d⟩ := hd
      by_cases hq : q = p
      · subst hq
        simp [removeAssoc, lookupC, Ne.symm h, ih]
      · simp [removeAssoc, lookupC, hq, ih]

theorem getFile_ensure_dirs (fs : Fs) (p : String) :
    (ensure_dirs fs).getFile p = fs.getFile p := rfl

theorem getFile_setFile_self (fs : Fs) (p : String) (c : Content) :
    (fs.setFile p c).getFile p = some c :=
  lookup_update_self fs.files p c

theorem getFile_setFile_ne (fs : Fs) (p r : String) (c : Content) (h : r ≠ p) :
    (fs.setFile p c).getFile r = fs.getFile r :=
  lookup_update_ne fs.files p r c h

theorem getFile_removeFile_self (fs : Fs) (p : String) :
    (fs.removeFile p).getFile p = none :=
  lookup_remove_self fs.files p

theorem getFile_removeFile_ne (fs : Fs) (p r : String) (h : r ≠ p) :
    (fs.removeFile p).getFile r = fs.getFile r :=
  lookup_remove_ne fs.files p r h

/-- read_production depends only on the content of the target path. -/
theorem read_production_congr (fs fs' : Fs)
    (h : fs'.getFile productionJsonPath = fs.getFile productionJsonPath) :
    read_production fs' = read_production fs := by
  unfold read_production read_production_run
  rw [h]

/-- read_production on a filesystem whose pointer file holds a JSON object
document returns that dict. -/
theorem read_production_of_jsonObj (fs : Fs) (kvs : PyDict)
    (h : fs.getFile productionJsonPath = some (.jsonObj kvs)) :
    read_production fs = kvs := by
  unfold read_production read_production_run
  rw [h]
  rfl

/-- After a successful atomic write, reading the pointer returns exactly
the record that was written. -/
theorem read_after_write (meta : PyDict) (fs : Fs) :
    read_production (write_production meta fs none).2 = meta := by
  have h1 : ((ensure_dirs fs).setFile tmpJsonPath (.jsonObj meta)).getFile tmpJsonPath
      = some (.jsonObj meta) := getFile_setFile_self _ _ _
  show read_production (((ensure_dirs fs).setFile tmpJsonPath
      (.jsonObj meta)).replaceFile tmpJsonPath productionJsonPath) = meta
  unfold Fs.replaceFile
  rw [h1]
  exact read_production_of_jsonObj _ meta (getFile_setFile_self _ _ _)

/-- Appending to the retrain log never touches the production pointer. -/
theorem read_after_append (entry : PyDict) (fs : Fs) (ok : Bool) :
    read_production (append_retrain_log entry fs ok).2 = read_production fs := by
  cases ok with
  | false => exact read_production_congr _ _ rfl
  | true => exact read_production_congr _ _ (getFile_setFile_ne _ _ _ _ (by decide))

end FsLemmas

section RegistryLemmas

/-- read_production_run never returns an error. -/
theorem read_production_run_isOk (fs : Fs) :
    ∃ d, read_production_run fs = .ok d := by
  unfold read_production_run
  cases fs.getFile productionJsonPath with
  | none => exact ⟨_, rfl⟩
  | some c => cases c <;> exact ⟨_, rfl⟩

/-- read_production is the value inside the always-ok run. -/
theorem read_production_run_eq (fs : Fs) :
    read_production_run fs = .ok (read_production fs) := by
  obtain ⟨d, hd⟩ := read_production_run_isOk fs
  unfold read_production
  rw [hd]

/-- A successful write changes no file other than the target (the
temporary file is created and then renamed away). -/
theorem getFile_write_other (meta : PyDict) (fs : Fs) (p : String)
    (h1 : p ≠ tmpJsonPath) (h2 : p ≠ productionJsonPath) :
    ((write_production meta fs none).2).getFile p = fs.getFile p := by
  show ((((ensure_dirs fs).setFile tmpJsonPath
      (.jsonObj meta)).replaceFile tmpJsonPath productionJsonPath)).getFile p
      = fs.getFile p
  unfold Fs.replaceFile
  rw [getFile_setFile_self]
  rw [getFile_setFile_ne _ _ _ _ h2, getFile_removeFile_ne _ _ _ h1,
    getFile_setFile_ne _ _ _ _ h1]
  rfl

/-- Reading the production pointer after a full promotion (write plus log
append) returns the record that was promoted. -/
theorem read_promote (meta : PyDict) (t : String) (ok : Bool) (fs : Fs) :
    read_production (promote meta t ok fs) = meta := by
  unfold promote
  rw [read_after_append]
  exact read_after_write _ _

/-- A successful promotion appends exactly one line, the record extended
with the logged-at timestamp, after all existing log lines. -/
theorem logLines_promote_true (meta : PyDict) (t : String) (fs : Fs) :
    logLines (promote meta t true fs)
      = logLines fs ++ [meta ++ [("logged_at_utc", .s t)]] := by
  unfold promote append_retrain_log
  simp only [if_true]
  have hpr : (ensure_dirs (write_production meta fs none).2).getFile retrainLogPath
      = fs.getFile retrainLogPath := by
    rw [getFile_ensure_dirs]
    exact getFile_write_other meta fs retrainLogPath (by decide) (by decide)
  unfold logLines
  rw [getFile_setFile_self, hpr]

end RegistryLemmas

/-- C10: both model variants ignore their prediction input entirely: every
ConstantModel predicts its y_value at every input, every MeanModel predicts
its mean_value at every input, and a dispatched prediction through any
model object is independent of the submitted height. -/
theorem predict_one_ignores_input (c : ConstantModel) (m : MeanModel)
    (mo : ModelObj) (x y : ℚ) :
    c.predict_one x = c.y_value ∧ c.predict_one x = c.predict_one y ∧
    m.predict_one x = m.mean_value ∧ m.predict_one x = m.predict_one y ∧
    mo.predictOne x = mo.predictOne y := by
  refine ⟨rfl, rfl, rfl, rfl, ?_⟩
  cases mo <;> rfl

/-- C3: round-trip: write_production of any record immediately followed by
read_production yields a record equal to it field-for-field, and the write
reports the target path. -/
theorem write_then_read_roundtrip (meta : PyDict) (fs : Fs) :
    read_production (write_production meta fs none).2 = meta ∧
    (write_production meta fs none).1 = .ok productionJsonPath :=
  ⟨read_after_write meta fs, rfl⟩

/-- C4: read_production never raises (the exception-explicit run always
returns ok), and on a filesystem where the pointer file is absent, empty,
unparseable, or not a JSON object, it returns the empty record, so
corruption is indistinguishable from absence. -/
theorem read_production_never_raises (fs : Fs)
    (h : fs.getFile productionJsonPath = none ∨
         fs.getFile productionJsonPath = some .emptyText ∨
         fs.getFile productionJsonPath = some .notJson ∨
         fs.getFile productionJsonPath = some .jsonNonObj) :
    read_production_run fs = .ok (read_production fs) ∧
    read_production fs = [] := by
  refine ⟨read_production_run_eq fs, ?_⟩
  unfold read_production read_production_run
  rcases h with h | h | h | h <;> rw [h] <;> rfl

/-- Witness for C4 at the empty filesystem, where the pointer file is
absent. -/
theorem read_production_never_raises_witness :
    read_production_run fsEmpty = .ok (read_production fsEmpty) ∧
    read_production fsEmpty = [] :=
  read_production_never_raises fsEmpty (Or.inl rfl)

/-- C5: unit normalization: on any nonempty list of parsed heights, if the
maximum exceeds 10 every value is divided by 100, and if the maximum is at
most 10 the list is unchanged; in particular 170, 180, 190 normalizes to
1.70, 1.80, 1.90 and the list 1.70, 1.80 is left unchanged. -/
theorem normalize_heights_units (h : ℚ) (t : List ℚ) :
    (10 < maxList h t →
      normalizeHeights (h :: t) = (h :: t).map (fun v => v / 100)) ∧
    (maxList h t ≤ 10 → normalizeHeights (h :: t) = h :: t) ∧
    normalizeHeights [170, 180, 190] = [17/10, 9/5, 19/10] ∧
    normalizeHeights [17/10, 9/5] = [17/10, 9/5] := by
  refine ⟨?_, ?_, ?_, ?_⟩
  · intro hlt
    show (if 10 < maxList h t then (h :: t).map (fun v => v / 100) else h :: t)
        = (h :: t).map (fun v => v / 100)
    rw [if_pos hlt]
  · intro hle
    show (if 10 < maxList h t then (h :: t).map (fun v => v / 100) else h :: t)
        = h :: t
    rw [if_neg (not_lt.mpr hle)]
  · show (if 10 < maxList 170 [180, 190] then
        ([170, 180, 190] : List ℚ).map (fun v => v / 100) else [170, 180, 190])
        = [17/10, 9/5, 19/10]
    rw [if_pos (by norm_num [maxList, max_def])]
    norm_num
  · show (if 10 < maxList (17/10) [9/5] then
        ([17/10, 9/5] : List ℚ).map (fun v => v / 100) else [17/10, 9/5])
        = [17/10, 9/5]
    rw [if_neg (by norm_num [maxList, max_def])]

/-- Witness for C5: the centimeter branch applied at the concrete dataset
170, 180, 190. -/
theorem normalize_heights_units_witness :
    normalizeHeights [170, 180, 190] = [170/100, 180/100, 190/100] :=
  (normalize_heights_units 170 [180, 190]).1 (by decide)

/-- C1: write_production is crash-safe: for every record, prior registry
state and failure point strictly before the atomic replace (mkstemp
failing, the temp-file write failing, or a simulated crash between the
temp-file write and the rename), the call reports the failure, the target
file is untouched, the temporary file does not remain, and read_production
still returns the prior record. -/
theorem write_production_crash_safe (meta : PyDict) (fs : Fs)
    (crash : WriteCrash) (htmp : fs.getFile tmpJsonPath = none) :
    (write_production meta fs (some crash)).1 = .error () ∧
    ((write_production meta fs (some crash)).2).getFile productionJsonPath
      = fs.getFile productionJsonPath ∧
    ((write_production meta fs (some crash)).2).getFile tmpJsonPath = none ∧
    read_production (write_production meta fs (some crash)).2
      = read_production fs := by
  cases crash with
  | duringMkstemp =>
      exact ⟨rfl, rfl, htmp, read_production_congr _ _ rfl⟩
  | afterMkstemp =>
      have hprod : (((ensure_dirs fs).setFile tmpJsonPath
          .emptyText).removeFile tmpJsonPath).getFile productionJsonPath
          = fs.getFile productionJsonPath := by
        rw [getFile_removeFile_ne _ _ _ (by decide),
          getFile_setFile_ne _ _ _ _ (by decide)]
        rfl
      exact ⟨rfl, hprod, getFile_removeFile_self _ _,
        read_production_congr _ _ hprod⟩
  | beforeReplace =>
      have hprod : (((ensure_dirs fs).setFile tmpJsonPath
          (.jsonObj meta)).removeFile tmpJsonPath).getFile productionJsonPath
          = fs.getFile productionJsonPath := by
        rw [getFile_removeFile_ne _ _ _ (by decide),
          getFile_setFile_ne _ _ _ _ (by decide)]
        rfl
      exact ⟨rfl, hprod, getFile_removeFile_self _ _,
        read_production_congr _ _ hprod⟩

section CsvLemmas

/-- One unfolding step of the row loop. -/
theorem collectHeights_cons (row : List (String × String))
    (rest : List (List (String × String))) (key : String) (i : ℕ) :
    collectHeights (row :: rest) key i
      = (if cellOf row key = "" then collectHeights rest key (i + 1)
         else
           match pyFloat (cellOf row key) with
           | some q => (collectHeights rest key (i + 1)).map (fun t => q :: t)
           | none => .error (.invalidRow i (cellOf row key))) := rfl

/-- Mapping twice over an Except value composes the functions. -/
theorem except_map_comp (x : Except TrainError (List ℚ))
    (f g : List ℚ → List ℚ) :
    (x.map f).map g = x.map (fun t => g (f t)) := by
  cases x <;> rfl

/-- Mapping the prepend of the empty list is the identity. -/
theorem except_map_nil (x : Except TrainError (List ℚ)) :
    x.map (fun t => ([] : List ℚ) ++ t) = x := by
  cases x <;> rfl

/-- The row loop over a prefix of rows it accepts continues into the rest
with the index advanced by the length of the prefix, prepending the values
collected from the prefix. -/
theorem collectHeights_append (key : String)
    (l : List (List (String × String))) :
    ∀ (pre : List (List (String × String))) (i : ℕ),
      (∀ r ∈ pre, rowOk key r) →
      ∃ vs : List ℚ, collectHeights (pre ++ l) key i
        = (collectHeights l key (i + pre.length)).map (fun t => vs ++ t) := by
  intro pre
  induction pre with
  | nil =>
      intro i _
      exact ⟨[], (except_map_nil _).symm⟩
  | cons row rest ih =>
      intro i h
      have hrest : ∀ r ∈ rest, rowOk key r :=
        fun r hr => h r (List.mem_cons_of_mem _ hr)
      rcases h row (List.mem_cons_self row rest) with hblank | hnum
      · obtain ⟨vs, hvs⟩ := ih (i + 1) hrest
        refine ⟨vs, ?_⟩
        rw [List.cons_append, collectHeights_cons, if_pos hblank, hvs]
        have hidx : i + 1 + rest.length = i + (row :: rest).length := by
          simp only [List.length_cons]
          omega
        rw [hidx]
      · obtain ⟨q, hq⟩ := Option.isSome_iff_exists.mp hnum
        obtain ⟨vs, hvs⟩ := ih (i + 1) hrest
        have hne : cellOf row key ≠ "" := by
          intro hb
          rw [hb] at hq
          exact Option.noConfusion hq
        refine ⟨q :: vs, ?_⟩
        have hidx : i + 1 + rest.length = i + (row :: rest).length := by
          simp only [List.length_cons]
          omega
        rw [hidx] at hvs
        rw [List.cons_append, collectHeights_cons, if_neg hne]
        simp only [hq, hvs, except_map_comp]
        rfl

/-- The row loop over rows whose height cells are all blank collects
nothing. -/
theorem collectHeights_blank (key : String) :
    ∀ (rows : List (List (String × String))),
      (∀ r ∈ rows, cellOf r key = "") →
      ∀ i, collectHeights rows key i = .ok [] := by
  intro rows
  induction rows with
  | nil => intro _ i; rfl
  | cons row rest ih =>
      intro h i
      rw [collectHeights_cons, if_pos (h row (List.mem_cons_self row rest))]
      exact ih (fun r hr => h r (List.mem_cons_of_mem _ hr)) (i + 1)

/-- With a header and a recognized height column, the reader reduces to
the row loop followed by the emptiness check and normalization. -/
theorem read_heights_eq (c : CsvData) (fns : List String) (key : String)
    (hf : c.fieldnames = some fns) (hk : findHeightCol fns = some key) :
    read_heights_csv_normalized c
      = (match collectHeights c.rows key 1 with
         | .error e => .error e
         | .ok hs =>
             if hs.isEmpty then .error .emptyDataset
             else .ok (normalizeHeights hs)) := by
  unfold read_heights_csv_normalized
  simp only [hf, hk]

end CsvLemmas

/-- C6: with a header row and a recognized height column, the loader fails
with the invalid-row error naming the one-based index and raw text of the
first non-blank non-numeric height cell, and fails with the empty-dataset
error when every row's height cell is blank so zero valid values remain. -/
theorem load_and_normalize_error_reporting (c : CsvData) (fns : List String)
    (key : String) (hf : c.fieldnames = some fns)
    (hk : findHeightCol fns = some key) :
    (∀ pre row post, c.rows = pre ++ row :: post →
       (∀ r ∈ pre, rowOk key r) →
       cellOf row key ≠ "" →
       pyFloat (cellOf row key) = none →
       read_heights_csv_normalized c
         = .error (.invalidRow (pre.length + 1) (cellOf row key))) ∧
    ((∀ r ∈ c.rows, cellOf r key = "") →
       read_heights_csv_normalized c = .error .emptyDataset) := by
  constructor
  · intro pre row post hrows hpre hne hbad
    rw [read_heights_eq c fns key hf hk, hrows]
    obtain ⟨vs, hvs⟩ := collectHeights_append key (row :: post) pre 1 hpre
    rw [hvs, collectHeights_cons, if_neg hne]
    simp only [hbad]
    rw [show 1 + pre.length = pre.length + 1 from Nat.add_comm 1 _]
    rfl
  · intro hblank
    rw [read_heights_eq c fns key hf hk, collectHeights_blank key c.rows hblank 1]
    rfl

/-- Witness for C6: the concrete table with rows 170 and abc fails at data
row 2 naming abc, and the table with a single blank cell fails as an empty
dataset. -/
theorem load_and_normalize_error_reporting_witness :
    read_heights_csv_normalized csvBad = .error (.invalidRow 2 "abc") ∧
    read_heights_csv_normalized csvBlank = .error .emptyDataset := by
  constructor
  · exact (load_and_normalize_error_reporting csvBad ["height_cm"] "height_cm"
      rfl rfl).1 [[("height_cm", "170")]] [("height_cm", "abc")] [] rfl
      (by decide) (by decide) rfl
  · exact (load_and_normalize_error_reporting csvBlank ["height_cm"] "height_cm"
      rfl rfl).2 (by decide)

section TrainLemmas

/-- The float constructor model accepts the text 170 and yields 170. -/
theorem pyFloat_170 : pyFloat "170" = some 170 := by
  rw [show pyFloat "170"
      = some ((1 : ℚ) * (((170 : ℕ) : ℚ) + ((0 : ℕ) : ℚ) / (10 : ℚ) ^ (0 : ℕ))
        * (10 : ℚ) ^ (0 : ℤ)) from rfl]
  norm_num

/-- The float constructor model accepts the text 180 and yields 180. -/
theorem pyFloat_180 : pyFloat "180" = some 180 := by
  rw [show pyFloat "180"
      = some ((1 : ℚ) * (((180 : ℕ) : ℚ) + ((0 : ℕ) : ℚ) / (10 : ℚ) ^ (0 : ℕ))
        * (10 : ℚ) ^ (0 : ℤ)) from rfl]
  norm_num

/-- The row loop on the scenario table collects 170 and 180. -/
theorem collectHeights_sample :
    collectHeights sampleCsv.rows "height_cm" 1 = .ok [170, 180] := by
  show collectHeights [[("member", "A"), ("height_cm", "170")],
    [("member", "B"), ("height_cm", "180")]] "height_cm" 1 = .ok [170, 180]
  rw [collectHeights_cons,
    show cellOf [("member", "A"), ("height_cm", "170")] "height_cm" = "170" from rfl,
    if_neg (by decide), pyFloat_170]
  rw [collectHeights_cons,
    show cellOf [("member", "B"), ("height_cm", "180")] "height_cm" = "180" from rfl,
    if_neg (by decide), pyFloat_180]
  rfl

/-- The scenario dataset, in centimeters, normalizes to 1.70 and 1.80
meters. -/
theorem read_heights_sample :
    read_heights_csv_normalized sampleCsv = .ok [17/10, 9/5] := by
  have hn : normalizeHeights [170, 180] = [17/10, 9/5] := by
    show (if 10 < maxList 170 [180] then
      ([170, 180] : List ℚ).map (fun v => v / 100) else [170, 180])
        = [17/10, 9/5]
    rw [if_pos (by decide)]
    norm_num
  rw [read_heights_eq sampleCsv ["member", "height_cm"] "height_cm" rfl rfl,
    collectHeights_sample]
  show (Except.ok (normalizeHeights [170, 180]) : Except TrainError (List ℚ))
      = .ok [17/10, 9/5]
  rw [hn]

/-- Materialization immediately succeeds when the dataset file exists. -/
theorem materialize_of_present (env : Env) (fs : Fs) (d : CsvData)
    (hcsv : fs.getFile dataCsvPath = some (.csvFile d)) :
    ensure_dataset_materialized env (ensure_dirs fs)
      = .ok (ensure_dirs fs, .csvFile d) := by
  unfold ensure_dataset_materialized
  rw [getFile_ensure_dirs, hcsv]

end TrainLemmas

/-- C2 counterexample: the input triple with trainer a single space (a
non-empty string) and model_type mean is valid according to the claim, yet
train_and_promote rejects it with the invalid-argument error instead of
promoting a matching record, because the code validates the stripped
trainer. -/
theorem train_and_promote_whitespace_trainer_cex :
    " " ≠ "" ∧
    (train_and_promote " " "mean" (3/2) envSample fsSample).1
      = .error (.invalidArgument "trainer must be a non-empty string") :=
  ⟨by decide, rfl⟩

/-- C2 (amended): for every input whose trainer is non-empty after
stripping whitespace and whose model_type is exactly constant or mean,
with the dataset readable and the tracking run available, train_and_promote
succeeds and read_production returns the promoted record, whose trainer
field is the stripped trainer, whose model_type matches the input, whose
n_rows is the dataset size, and whose y_value is the input literal for the
constant variant and the exact arithmetic mean of the normalized dataset
for the mean variant. -/
theorem train_and_promote_then_read (trainer model_type : String) (y : ℚ)
    (env : Env) (fs : Fs) (d : CsvData) (hs : List ℚ) (rid : String)
    (htr : ¬ pyStrip trainer = "")
    (hmt : model_type = "constant" ∨ model_type = "mean")
    (hcsv : fs.getFile dataCsvPath = some (.csvFile d))
    (hhs : read_heights_csv_normalized d = .ok hs)
    (hml : env.mlflowRunId = some rid) :
    ∃ meta, (train_and_promote trainer model_type y env fs).1 = .ok meta ∧
      read_production (train_and_promote trainer model_type y env fs).2 = meta ∧
      lookupJ meta "trainer" = some (.s (pyStrip trainer)) ∧
      lookupJ meta "model_type" = some (.s model_type) ∧
      lookupJ meta "n_rows" = some (.num (hs.length : ℚ)) ∧
      (model_type = "constant" → lookupJ meta "y_value" = some (.num y)) ∧
      (model_type = "mean" →
        lookupJ meta "y_value" = some (.num (hs.sum / (hs.length : ℚ)))) := by
  have hhs' : readHeightsFromContent (.csvFile d) = .ok hs := hhs
  rcases hmt with hmt | hmt <;> subst hmt
  · simp only [train_and_promote]
    rw [if_neg htr,
      if_pos (show normModelType "constant" = "constant"
        ∨ normModelType "constant" = "mean" from Or.inl rfl)]
    simp only [materialize_of_present env fs d hcsv, hhs', hml]
    refine ⟨_, rfl, ?_, rfl, rfl, rfl, fun _ => rfl, ?_⟩
    · rw [read_after_append]
      exact read_after_write _ _
    · intro hc
      exact absurd hc (by decide)
  · simp only [train_and_promote]
    rw [if_neg htr,
      if_pos (show normModelType "mean" = "constant"
        ∨ normModelType "mean" = "mean" from Or.inr rfl)]
    simp only [materialize_of_present env fs d hcsv, hhs', hml]
    refine ⟨_, rfl, ?_, rfl, rfl, rfl, ?_, fun _ => rfl⟩
    · rw [read_after_append]
      exact read_after_write _ _
    · intro hc
      exact absurd hc (by decide)

/-- Witness for C2 on the specification scenario: trainer with surrounding
spaces, model_type mean, the dataset with heights 170 and 180; the promoted
and read-back record carries the stripped trainer, n_rows two and the mean
statistic 1.75. -/
theorem train_and_promote_then_read_witness :
    (train_and_promote " alice " "mean" (3/2) envSample fsSample).1
      = .ok (read_production
          (train_and_promote " alice " "mean" (3/2) envSample fsSample).2) ∧
    lookupJ (read_production
        (train_and_promote " alice " "mean" (3/2) envSample fsSample).2)
      "trainer" = some (.s "alice") ∧
    lookupJ (read_production
        (train_and_promote " alice " "mean" (3/2) envSample fsSample).2)
      "model_type" = some (.s "mean") ∧
    lookupJ (read_production
        (train_and_promote " alice " "mean" (3/2) envSample fsSample).2)
      "n_rows" = some (.num 2) ∧
    lookupJ (read_production
        (train_and_promote " alice " "mean" (3/2) envSample fsSample).2)
      "y_value" = some (.num (7/4)) := by
  obtain ⟨meta, h1, h2, h3, h4, h5, _, h7⟩ :=
    train_and_promote_then_read " alice " "mean" (3/2) envSample fsSample
      sampleCsv [17/10, 9/5] "run-0001" (by decide) (Or.inr rfl) rfl
      read_heights_sample rfl
  rw [h2]
  refine ⟨h1, h3, h4, ?_, ?_⟩
  · rw [h5]
    norm_num
  · rw [h7 rfl]
    norm_num [List.sum_cons, List.sum_nil]

/-- C7 counterexample: the input model_type MEAN lies outside the closed
enumeration yet train_and_promote does not fail with the invalid-argument
error: it normalizes the tag by stripping and lowercasing, proceeds to
perform filesystem writes, and succeeds, so the promoted pointer appears. -/
theorem validation_normalizes_model_type_cex :
    ("MEAN" ≠ "constant" ∧ "MEAN" ≠ "mean") ∧
    (train_and_promote "alice" "MEAN" (3/2) envSample fsSample).1
      = .ok (read_production
          (train_and_promote "alice" "MEAN" (3/2) envSample fsSample).2) ∧
    ((train_and_promote "alice" "MEAN" (3/2) envSample fsSample).2.getFile
      productionJsonPath).isSome = true ∧
    (fsSample.getFile productionJsonPath).isSome = false :=
  ⟨by decide, rfl, rfl, rfl⟩

/-- C7 (amended): whenever the stripped trainer is empty, or the
normalized model_type (stripped, lowercased, with the empty string
defaulting to constant) is outside the closed enumeration, the call fails
with the invalid-argument error and the filesystem is completely
unchanged, so the validation happens before any I/O. -/
theorem train_and_promote_invalid_args (trainer model_type : String)
    (y : ℚ) (env : Env) (fs : Fs)
    (h : pyStrip trainer = "" ∨
         (normModelType model_type ≠ "constant"
          ∧ normModelType model_type ≠ "mean")) :
    (∃ msg, (train_and_promote trainer model_type y env fs).1
       = .error (.invalidArgument msg)) ∧
    (train_and_promote trainer model_type y env fs).2 = fs := by
  rcases h with h | ⟨h1, h2⟩
  · constructor
    · refine ⟨"trainer must be a non-empty string", ?_⟩
      simp only [train_and_promote]
      rw [if_pos h]
    · simp only [train_and_promote]
      rw [if_pos h]
  · have hcond : ¬ (normModelType model_type = "constant"
        ∨ normModelType model_type = "mean") := by
      rintro (hc | hm)
      exacts [h1 hc, h2 hm]
    by_cases ht : pyStrip trainer = ""
    · constructor
      · refine ⟨"trainer must be a non-empty string", ?_⟩
        simp only [train_and_promote]
        rw [if_pos ht]
      · simp only [train_and_promote]
        rw [if_pos ht]
    · constructor
      · refine ⟨"model_type must be either constant or mean", ?_⟩
        simp only [train_and_promote]
        rw [if_neg ht, if_neg hcond]
      · simp only [train_and_promote]
        rw [if_neg ht, if_neg hcond]

/-- Witness for C7 with an empty trainer and an unknown model type: the
call fails with the invalid-argument error and the empty filesystem is
untouched. -/
theorem train_and_promote_invalid_args_witness :
    (∃ msg, (train_and_promote "" "xgboost" (3/2) envSample fsEmpty).1
       = .error (.invalidArgument msg)) ∧
    (train_and_promote "" "xgboost" (3/2) envSample fsEmpty).2 = fsEmpty :=
  train_and_promote_invalid_args "" "xgboost" (3/2) envSample fsEmpty
    (Or.inl rfl)

/-- C8: after two sequential successful promotions the pointer read
returns exactly the second record, both log entries appear after the prior
log lines in call order, and a failed log append does not roll back the
prior successful pointer write. -/
theorem sequential_promotions_log_order (r1 r2 : PyDict) (t1 t2 : String)
    (fs : Fs) (ls : List PyDict)
    (hlog : fs.getFile retrainLogPath = some (.jsonl ls) ∨
            (fs.getFile retrainLogPath = none ∧ ls = [])) :
    read_production (promote r2 t2 true (promote r1 t1 true fs)) = r2 ∧
    logLines (promote r2 t2 true (promote r1 t1 true fs))
      = ls ++ [r1 ++ [("logged_at_utc", .s t1)],
               r2 ++ [("logged_at_utc", .s t2)]] ∧
    read_production (promote r2 t2 false (promote r1 t1 true fs)) = r2 := by
  refine ⟨read_promote _ _ _ _, ?_, read_promote _ _ _ _⟩
  rw [logLines_promote_true, logLines_promote_true]
  have hls : logLines fs = ls := by
    rcases hlog with h | ⟨h, h0⟩
    · unfold logLines
      rw [h]
    · unfold logLines
      rw [h, h0]
  rw [hls, List.append_assoc]
  rfl

/-- Witness for C8: two concrete promotions on the empty filesystem. -/
theorem sequential_promotions_log_order_witness :
    read_production (promote [("b", .s "2")] "t2" true
      (promote [("a", .s "1")] "t1" true fsEmpty)) = [("b", .s "2")] ∧
    logLines (promote [("b", .s "2")] "t2" true
      (promote [("a", .s "1")] "t1" true fsEmpty))
      = [] ++ [[("a", .s "1")] ++ [("logged_at_utc", .s "t1")],
               [("b", .s "2")] ++ [("logged_at_utc", .s "t2")]] ∧
    read_production (promote [("b", .s "2")] "t2" false
      (promote [("a", .s "1")] "t1" true fsEmpty)) = [("b", .s "2")] :=
  sequential_promotions_log_order [("a", .s "1")] [("b", .s "2")] "t1" "t2"
    fsEmpty [] (Or.inr ⟨rfl, rfl⟩)

/-- C9: the serving load routine never raises: its exception-explicit run
returns ok on every filesystem, the resulting state does not depend on the
previous state (the triple is replaced as a unit), and any body exception
is recorded as the load error with the model cleared. -/
theorem load_model_never_raises (fs : Fs) (p1 p2 : ServingState) :
    load_model_run p1 fs = .ok (load_model p1 fs) ∧
    load_model p1 fs = load_model p2 fs ∧
    (∀ e, loadBody fs = .error e →
      load_model p1 fs
        = { model := none, production_meta := read_production fs,
            model_load_error := "Failed to load production model: " ++ e }) := by
  refine ⟨?_, rfl, ?_⟩
  · unfold load_model load_model_run
    rcases hb : loadBody fs with e | ⟨m, err⟩ <;> simp only [hb]
  · intro e he
    unfold load_model
    simp only [he]

/-- Witness for C9 on a filesystem whose pointer names a missing artifact:
the run is ok and the failure is recorded as the load error. -/
theorem load_model_never_raises_witness :
    load_model_run ⟨none, [], ""⟩ fsBadPointer
      = .ok (load_model ⟨none, [], ""⟩ fsBadPointer) ∧
    load_model ⟨none, [], ""⟩ fsBadPointer
      = { model := none, production_meta := read_production fsBadPointer,
          model_load_error := "Failed to load production model: "
            ++ "FileNotFoundError" } :=
  ⟨(load_model_never_raises fsBadPointer ⟨none, [], ""⟩ ⟨none, [], ""⟩).1,
   (load_model_never_raises fsBadPointer ⟨none, [], ""⟩ ⟨none, [], ""⟩).2.2
     "FileNotFoundError" rfl⟩

/-- Witness for C1: a simulated crash between the temp-file write and the
rename, on the empty filesystem. -/
theorem write_production_crash_safe_witness :
    (write_production [] fsEmpty (some .beforeReplace)).1 = .error () ∧
    ((write_production [] fsEmpty (some .beforeReplace)).2).getFile
      productionJsonPath = fsEmpty.getFile productionJsonPath ∧
    ((write_production [] fsEmpty (some .beforeReplace)).2).getFile
      tmpJsonPath = none ∧
    read_production (write_production [] fsEmpty (some .beforeReplace)).2
      = read_production fsEmpty :=
  write_production_crash_safe [] fsEmpty .beforeReplace rfl

end Valencia
